import Mathlib

/-!
Verification development for the tocai jukebox backend (Flask route handlers
in `app.py` plus the Supabase persistence gateway in `database.py`).

The route handlers are embedded shallowly: external calls (the spotipy client,
the Supabase client) are passed in as explicit outcome parameters of type
`SpotifyCall`, the Flask `session` dict becomes an explicit `Session` record
threaded through each handler, and database tables become explicit lists of
rows (for `queue_history` and `users`) or traces of write calls (for the
`playlists` upsert, whose conflict key lives in the external schema).
-/

namespace Tocai

/-- Python truthiness of an optional string: `None` and the empty string are
falsy, every other string is truthy (mirrors `if not x:` guards in the code). -/
def pyTruthy : Option String → Bool
  | none => false
  | some s => !(s == "")

/-- Python `x or d` for an optional string `x` and a string default `d`,
as in `track_name or 'Unknown'`. -/
def pyOrDefault (x : Option String) (d : String) : String :=
  match x with
  | none => d
  | some s => if s == "" then d else s

/-- Python `a or b` on two optional strings, as in
`current_user['display_name'] or current_user['email']`. -/
def pyOrOpt (a b : Option String) : Option String :=
  if pyTruthy a then a else b

/-- Whether the second list is an initial segment of the first. -/
def listStartsWith : List Char → List Char → Bool
  | _, [] => true
  | [], _ :: _ => false
  | a :: as, b :: bs => a == b && listStartsWith as bs

/-- Whether `pat` occurs as a contiguous sublist. -/
def listContainsSub (pat : List Char) : List Char → Bool
  | [] => pat.isEmpty
  | c :: cs => listStartsWith (c :: cs) pat || listContainsSub pat cs

/-- Python substring test `pat in s`, used by the handlers on `str(e)`. -/
def strContains (s pat : String) : Bool :=
  listContainsSub pat.data s.data

/-- The token dict stored in `session['token_info']` by the OAuth exchange. -/
structure TokenInfo where
  access_token : String
  refresh_token : String
  expires_at : Int
  deriving DecidableEq

/-- The Flask server-side session, restricted to the keys the handlers use. -/
structure Session where
  auth_id : Option String := none
  email : Option String := none
  user_id : Option String := none
  user_name : Option String := none
  token_info : Option TokenInfo := none
  selected_playlist_id : Option String := none
  selected_playlist_name : Option String := none
  deriving DecidableEq

/-- A `spotipy.Spotify` client handle, carrying the access token it was built
with (`spotipy.Spotify(auth=...)`). -/
structure Spotify where
  auth : String
  deriving DecidableEq

/-- The `SpotifyOAuth` helper of the spotipy library, external to this
repository: expiry testing and token refresh are supplied as oracles. -/
structure SpotifyOAuth where
  is_token_expired : TokenInfo → Bool
  refresh_access_token : String → TokenInfo

/-- Result of `get_spotipy_client`: the client handle (or `None`), the session
after the call, and how many times `refresh_access_token` was invoked. -/
structure ClientResult where
  client : Option Spotify
  session : Session
  refresh_calls : Nat
  deriving DecidableEq

/-- `get_spotipy_client` (app.py): returns `None` when the session holds no
token; refreshes and persists the token when it is expired; otherwise builds a
client from the stored access token. -/
def get_spotipy_client (sp_oauth : SpotifyOAuth) (s : Session) : ClientResult :=
  match s.token_info with
  | none => ⟨none, s, 0⟩
  | some token_info =>
    if sp_oauth.is_token_expired token_info then
      let fresh := sp_oauth.refresh_access_token token_info.refresh_token
      ⟨some ⟨fresh.access_token⟩, { s with token_info := some fresh }, 1⟩
    else
      ⟨some ⟨token_info.access_token⟩, s, 0⟩

/-- Outcome of a call into an external client library: a value, a
`spotipy.SpotifyException` carrying `str(e)`, or any other exception. -/
inductive SpotifyCall (α : Type) where
  | ok (val : α)
  | spotifyError (msg : String)
  | otherError (msg : String)

/-- `get_spotipy_client` never touches the session keys other than
`token_info`. -/
theorem get_spotipy_client_preserves (sp_oauth : SpotifyOAuth) (s : Session) :
    (get_spotipy_client sp_oauth s).session.auth_id = s.auth_id ∧
    (get_spotipy_client sp_oauth s).session.user_id = s.user_id ∧
    (get_spotipy_client sp_oauth s).session.selected_playlist_id = s.selected_playlist_id ∧
    (get_spotipy_client sp_oauth s).session.selected_playlist_name = s.selected_playlist_name := by
  unfold get_spotipy_client
  cases h : s.token_info with
  | none => simp
  | some ti => by_cases hexp : sp_oauth.is_token_expired ti = true <;> simp [hexp]

/-- C1: for a session holding a non-expired token, `get_spotipy_client`
returns a usable client built from the stored access token, leaves the session
unchanged and performs no refresh call; for an expired token it performs
exactly one refresh call and persists the refreshed token pair back into the
session, returning a client built from the fresh access token; for a session
with no token at all it returns none. -/
theorem get_spotipy_client_spec (sp_oauth : SpotifyOAuth) (s : Session) :
    (s.token_info = none →
      get_spotipy_client sp_oauth s = ⟨none, s, 0⟩) ∧
    (∀ ti, s.token_info = some ti → sp_oauth.is_token_expired ti = false →
      get_spotipy_client sp_oauth s = ⟨some ⟨ti.access_token⟩, s, 0⟩) ∧
    (∀ ti, s.token_info = some ti → sp_oauth.is_token_expired ti = true →
      get_spotipy_client sp_oauth s =
        ⟨some ⟨(sp_oauth.refresh_access_token ti.refresh_token).access_token⟩,
         { s with token_info := some (sp_oauth.refresh_access_token ti.refresh_token) }, 1⟩) := by
  refine ⟨fun h => ?_, fun ti h hexp => ?_, fun ti h hexp => ?_⟩
  · simp [get_spotipy_client, h]
  · simp [get_spotipy_client, h, hexp]
  · simp [get_spotipy_client, h, hexp]

/-- A concrete `SpotifyOAuth` oracle used by witnesses: tokens with
`expires_at < 100` count as expired, and refresh yields a fixed fresh token. -/
def oauthW : SpotifyOAuth :=
  ⟨fun ti => decide (ti.expires_at < 100), fun rt => ⟨"fresh_access", rt, 1000⟩⟩

theorem get_spotipy_client_spec_witness :
    get_spotipy_client oauthW { token_info := some ⟨"old_access", "refresh1", 0⟩ } =
      ⟨some ⟨"fresh_access"⟩,
       { token_info := some ⟨"fresh_access", "refresh1", 1000⟩ }, 1⟩ :=
  (get_spotipy_client_spec oauthW _).2.2 ⟨"old_access", "refresh1", 0⟩ rfl (by decide)

/-- A row of the `queue_history` table as inserted by `save_to_queue_history`. -/
structure QueueHistoryRow where
  user_id : String
  spotify_track_id : String
  track_name : String
  track_artist : String
  playlist_id : Option String
  deriving DecidableEq

/-- `save_to_queue_history` (database.py): append-only insert into the
`queue_history` table. -/
def save_to_queue_history (table : List QueueHistoryRow)
    (user_id spotify_track_id track_name track_artist : String)
    (playlist_id : Option String) : List QueueHistoryRow :=
  table ++ [⟨user_id, spotify_track_id, track_name, track_artist, playlist_id⟩]

/-- JSON body of a POST to `/api/add_to_queue`; each `data.get` is an
optional string. -/
structure AddToQueueBody where
  track_uri : Option String := none
  track_name : Option String := none
  track_artist : Option String := none
  track_id : Option String := none
  deriving DecidableEq

/-- An HTTP response of the JSON API routes: status code plus the error or
message string of the JSON body. -/
structure ApiResponse where
  status : Nat
  error : Option String := none
  message : Option String := none
  deriving DecidableEq

/-- Result of a request to `/api/add_to_queue`: the response, the session
after the request, and the `queue_history` table after the request. -/
structure AddToQueueResult where
  response : ApiResponse
  session : Session
  queue_history : List QueueHistoryRow
  deriving DecidableEq

/-- `add_to_queue` (app.py, route `/api/add_to_queue`). `add_call` is the
outcome of the external `sp.add_to_queue(track_uri)` call. -/
def add_to_queue (sp_oauth : SpotifyOAuth) (add_call : SpotifyCall Unit)
    (s : Session) (body : AddToQueueBody) (queue_history : List QueueHistoryRow) :
    AddToQueueResult :=
  if !(pyTruthy s.auth_id) then
    ⟨⟨401, some "Não autenticado.", none⟩, s, queue_history⟩
  else
    let gc := get_spotipy_client sp_oauth s
    match gc.client with
    | none =>
      ⟨⟨401, some "Autorização do Spotify necessária.", none⟩, gc.session, queue_history⟩
    | some _ =>
      let s1 := gc.session
      if !(pyTruthy body.track_uri) then
        ⟨⟨400, some "URI da faixa não fornecida.", none⟩, s1, queue_history⟩
      else
        match add_call with
        | .ok _ =>
          let hist :=
            if pyTruthy s1.user_id && pyTruthy body.track_id then
              save_to_queue_history queue_history (s1.user_id.getD "")
                (body.track_id.getD "") (pyOrDefault body.track_name "Unknown")
                (pyOrDefault body.track_artist "Unknown") none
            else queue_history
          ⟨⟨200, none, some "Música adicionada à fila com sucesso!"⟩, s1, hist⟩
        | .spotifyError msg =>
          if strContains msg "No active device found" then
            ⟨⟨409, some "Nenhum dispositivo ativo encontrado. Por favor, inicie a reprodução no Spotify.", none⟩,
             s1, queue_history⟩
          else if strContains msg "The access token expired" then
            ⟨⟨401, some "Token de acesso expirado. Por favor, autorize novamente.", none⟩,
             { s1 with token_info := none }, queue_history⟩
          else
            ⟨⟨500, some ("Erro ao adicionar à fila: " ++ msg), none⟩, s1, queue_history⟩
        | .otherError msg =>
          ⟨⟨500, some ("Ocorreu um erro inesperado: " ++ msg), none⟩, s1, queue_history⟩

/-- C2: when the external add-to-queue call fails with a SpotifyException
whose message contains "No active device found", the request that reached
that call returns status 409 and the `queue_history` table is unchanged. -/
theorem add_to_queue_no_device_keeps_history (sp_oauth : SpotifyOAuth)
    (s : Session) (body : AddToQueueBody) (hist : List QueueHistoryRow) (msg : String)
    (hauth : pyTruthy s.auth_id = true)
    (hclient : (get_spotipy_client sp_oauth s).client.isSome = true)
    (huri : pyTruthy body.track_uri = true)
    (hmsg : strContains msg "No active device found" = true) :
    (add_to_queue sp_oauth (.spotifyError msg) s body hist).response.status = 409 ∧
    (add_to_queue sp_oauth (.spotifyError msg) s body hist).queue_history = hist := by
  obtain ⟨c, hc⟩ := Option.isSome_iff_exists.mp hclient
  simp [add_to_queue, hauth, hc, huri, hmsg]

/-- Session and history used by the add-to-queue witnesses. -/
def sessionW : Session :=
  { auth_id := some "auth1", user_id := some "user1",
    token_info := some ⟨"tok", "ref", 500⟩, selected_playlist_id := some "p1" }

theorem add_to_queue_no_device_keeps_history_witness :
    (add_to_queue oauthW (.spotifyError "No active device found")
      sessionW { track_uri := some "spotify:track:1", track_id := some "t1" }
      []).response.status = 409 ∧
    (add_to_queue oauthW (.spotifyError "No active device found")
      sessionW { track_uri := some "spotify:track:1", track_id := some "t1" }
      []).queue_history = [] :=
  add_to_queue_no_device_keeps_history oauthW sessionW
    { track_uri := some "spotify:track:1", track_id := some "t1" } []
    "No active device found" (by decide) (by decide) (by decide) (by decide)

/-- C10: a request to `/api/add_to_queue` that carries `track_uri` but whose
body lacks `track_id`, or whose session lacks `user_id`, still returns 200
when the external queue-add succeeds, and no `queue_history` row is inserted:
the history append is silently skipped. -/
theorem add_to_queue_missing_track_id_spec (sp_oauth : SpotifyOAuth)
    (s : Session) (body : AddToQueueBody) (hist : List QueueHistoryRow)
    (hauth : pyTruthy s.auth_id = true)
    (hclient : (get_spotipy_client sp_oauth s).client.isSome = true)
    (huri : pyTruthy body.track_uri = true)
    (hskip : pyTruthy s.user_id = false ∨ pyTruthy body.track_id = false) :
    (add_to_queue sp_oauth (.ok ()) s body hist).response.status = 200 ∧
    (add_to_queue sp_oauth (.ok ()) s body hist).queue_history = hist := by
  obtain ⟨c, hc⟩ := Option.isSome_iff_exists.mp hclient
  have huid : (get_spotipy_client sp_oauth s).session.user_id = s.user_id :=
    (get_spotipy_client_preserves sp_oauth s).2.1
  rcases hskip with hskip | hskip <;>
    simp [add_to_queue, hauth, hc, huri, huid, hskip]

theorem add_to_queue_missing_track_id_spec_witness :
    (add_to_queue oauthW (.ok ()) sessionW
      { track_uri := some "spotify:track:1" } []).response.status = 200 ∧
    (add_to_queue oauthW (.ok ()) sessionW
      { track_uri := some "spotify:track:1" } []).queue_history = [] :=
  add_to_queue_missing_track_id_spec oauthW sessionW
    { track_uri := some "spotify:track:1" } []
    (by decide) (by decide) (by decide) (Or.inr (by decide))

/-- An image object of the external API (`{'url': ...}`). -/
structure ImageObj where
  url : String
  deriving DecidableEq

/-- The playlist object returned by `sp.playlist(playlist_id)`, restricted to
the fields `set_playlist` reads. -/
structure SpPlaylist where
  name : String
  images : List ImageObj
  deriving DecidableEq

/-- The row upserted into the `playlists` table by `save_selected_playlist`.
The table itself is modelled as the trace of upsert calls, since the upsert
conflict key lives in the external database schema. -/
structure PlaylistRow where
  user_id : String
  spotify_playlist_id : String
  playlist_name : String
  playlist_image_url : Option String
  deriving DecidableEq

/-- Result of a request to `/api/set_playlist`. -/
structure SetPlaylistResult where
  response : ApiResponse
  session : Session
  playlists_writes : List PlaylistRow
  deriving DecidableEq

/-- `set_playlist` (app.py, route `/api/set_playlist`). `playlist_call` is
the outcome of the external `sp.playlist(playlist_id)` lookup, `save_ok`
whether `save_selected_playlist` returns a row. -/
def set_playlist (sp_oauth : SpotifyOAuth) (playlist_call : SpotifyCall SpPlaylist)
    (save_ok : Bool) (s : Session) (playlist_id : Option String)
    (writes : List PlaylistRow) : SetPlaylistResult :=
  if !(pyTruthy s.auth_id) then
    ⟨⟨401, some "Não autenticado.", none⟩, s, writes⟩
  else if !(pyTruthy playlist_id) then
    ⟨⟨400, some "ID da playlist não fornecido.", none⟩, s, writes⟩
  else
    let gc := get_spotipy_client sp_oauth s
    match gc.client with
    | none =>
      ⟨⟨401, some "Autorização do Spotify necessária.", none⟩, gc.session, writes⟩
    | some _ =>
      let s1 := gc.session
      if !(pyTruthy s1.user_id) then
        ⟨⟨401, some "Usuário não identificado.", none⟩, s1, writes⟩
      else
        match playlist_call with
        | .ok playlist =>
          let row : PlaylistRow :=
            ⟨s1.user_id.getD "", playlist_id.getD "", playlist.name,
             match playlist.images with
             | [] => none
             | i :: _ => some i.url⟩
          if save_ok then
            ⟨⟨200, none, some "Playlist selecionada com sucesso!"⟩,
             { s1 with selected_playlist_id := playlist_id,
                       selected_playlist_name := some playlist.name },
             writes ++ [row]⟩
          else
            ⟨⟨500, some "Erro ao salvar a playlist no banco de dados.", none⟩, s1, writes⟩
        | .spotifyError msg =>
          ⟨⟨500, some ("Erro ao selecionar playlist: " ++ msg), none⟩, s1, writes⟩
        | .otherError msg =>
          ⟨⟨500, some ("Ocorreu um erro inesperado: " ++ msg), none⟩, s1, writes⟩

/-- C3: when the external playlist lookup raises, `set_playlist` writes no
selection record, leaves the selected-playlist session fields unchanged, and
returns an error response (status 500); a selection record is only written
when the lookup succeeded. -/
theorem set_playlist_rejected_no_write (sp_oauth : SpotifyOAuth)
    (playlist_call : SpotifyCall SpPlaylist) (save_ok : Bool) (s : Session)
    (playlist_id : Option String) (writes : List PlaylistRow)
    (hauth : pyTruthy s.auth_id = true)
    (hpid : pyTruthy playlist_id = true)
    (hclient : (get_spotipy_client sp_oauth s).client.isSome = true)
    (huid : pyTruthy s.user_id = true)
    (herr : ∀ p, playlist_call ≠ .ok p) :
    (set_playlist sp_oauth playlist_call save_ok s playlist_id writes).response.status = 500 ∧
    (set_playlist sp_oauth playlist_call save_ok s playlist_id writes).playlists_writes = writes ∧
    (set_playlist sp_oauth playlist_call save_ok s playlist_id writes).session.selected_playlist_id
      = s.selected_playlist_id ∧
    (set_playlist sp_oauth playlist_call save_ok s playlist_id writes).session.selected_playlist_name
      = s.selected_playlist_name := by
  obtain ⟨c, hc⟩ := Option.isSome_iff_exists.mp hclient
  obtain ⟨-, huid1, hsel, hseln⟩ := get_spotipy_client_preserves sp_oauth s
  cases playlist_call with
  | ok p => exact absurd rfl (herr p)
  | spotifyError msg => simp [set_playlist, hauth, hpid, hc, huid1, huid, hsel, hseln]
  | otherError msg => simp [set_playlist, hauth, hpid, hc, huid1, huid, hsel, hseln]

theorem set_playlist_rejected_no_write_witness :
    (set_playlist oauthW (.spotifyError "http status 404, not found") true
      sessionW (some "p2") []).response.status = 500 ∧
    (set_playlist oauthW (.spotifyError "http status 404, not found") true
      sessionW (some "p2") []).playlists_writes = [] ∧
    (set_playlist oauthW (.spotifyError "http status 404, not found") true
      sessionW (some "p2") []).session.selected_playlist_id = sessionW.selected_playlist_id ∧
    (set_playlist oauthW (.spotifyError "http status 404, not found") true
      sessionW (some "p2") []).session.selected_playlist_name = sessionW.selected_playlist_name :=
  set_playlist_rejected_no_write oauthW (.spotifyError "http status 404, not found")
    true sessionW (some "p2") [] (by decide) (by decide) (by decide) (by decide)
    (fun p h => by cases h)

/-- The pagination loop shared by the listing routes:
`items.extend(results['items'])` followed by `while results['next']:` —
pages are consumed in order, each appended to the accumulator. -/
def gather {α : Type} : List (List α) → List α → List α
  | [], acc => acc
  | p :: ps, acc => gather ps (acc ++ p)

theorem gather_eq {α : Type} (ps : List (List α)) (acc : List α) :
    gather ps acc = acc ++ ps.flatten := by
  induction ps generalizing acc with
  | nil => simp [gather]
  | cons p ps ih => simp [gather, ih]

/-- A playlist object of the external listing (`sp.current_user_playlists`),
restricted to the fields the route reads. -/
structure SpPlaylistItem where
  id : String
  name : String
  images : List ImageObj
  tracks_total : Nat
  owner_display_name : String
  deriving DecidableEq

/-- One entry of the JSON answer of `/api/user_playlists`. -/
structure FormattedPlaylist where
  id : String
  name : String
  image : Option String
  tracks_total : Nat
  owner : String
  deriving DecidableEq

def format_playlist (p : SpPlaylistItem) : FormattedPlaylist :=
  ⟨p.id, p.name,
   (match p.images with
    | [] => none
    | i :: _ => some i.url),
   p.tracks_total, p.owner_display_name⟩

/-- The `for playlist in playlists:` formatting loop of `/api/user_playlists`. -/
def build_formatted_playlists : List SpPlaylistItem → List FormattedPlaylist → List FormattedPlaylist
  | [], acc => acc
  | p :: ps, acc => build_formatted_playlists ps (acc ++ [format_playlist p])

/-- Result of a request to `/api/user_playlists`. -/
structure UserPlaylistsResult where
  status : Nat
  playlists : Option (List FormattedPlaylist)
  error : Option String
  session : Session
  deriving DecidableEq

/-- `get_user_playlists` (app.py, route `/api/user_playlists`). `fetch` is the
outcome of the paginated external listing, as the list of its pages. -/
def get_user_playlists (sp_oauth : SpotifyOAuth)
    (fetch : SpotifyCall (List (List SpPlaylistItem))) (s : Session) :
    UserPlaylistsResult :=
  if !(pyTruthy s.auth_id) then
    ⟨401, none, some "Não autenticado.", s⟩
  else
    let gc := get_spotipy_client sp_oauth s
    match gc.client with
    | none => ⟨401, none, some "Autorização do Spotify necessária.", gc.session⟩
    | some _ =>
      let s1 := gc.session
      match fetch with
      | .ok pages =>
        ⟨200, some (build_formatted_playlists (gather pages []) []), none, s1⟩
      | .spotifyError msg =>
        if strContains msg "The access token expired" then
          ⟨401, none, some "Token de acesso expirado. Por favor, autorize novamente.",
           { s1 with token_info := none }⟩
        else
          ⟨500, none, some ("Erro ao carregar as playlists: " ++ msg), s1⟩
      | .otherError msg =>
        ⟨500, none, some ("Ocorreu um erro inesperado: " ++ msg), s1⟩

/-- An artist object of a track (`{'name': ...}`). -/
structure ArtistObj where
  name : String
  deriving DecidableEq

/-- An album object of a track, restricted to its image list. -/
structure AlbumObj where
  images : List ImageObj
  deriving DecidableEq

/-- A track object of the external API, restricted to the fields read. -/
structure TrackObj where
  id : String
  name : String
  artists : List ArtistObj
  uri : String
  album : AlbumObj
  deriving DecidableEq

/-- One slot of a playlist listing; its `track` can be null (a removed track
whose slot remains). -/
structure PlaylistTrackItem where
  track : Option TrackObj
  deriving DecidableEq

/-- One entry of the JSON answer of `/api/playlist_tracks`. -/
structure FormattedTrack where
  id : String
  name : String
  artist : String
  uri : String
  album_art : Option String
  deriving DecidableEq

/-- The per-track formatting of `/api/playlist_tracks`: artists joined by
", ", album art the first album image URL when one exists. -/
def format_track (t : TrackObj) : FormattedTrack :=
  ⟨t.id, t.name, String.intercalate ", " (t.artists.map ArtistObj.name), t.uri,
   (match t.album.images with
    | [] => none
    | i :: _ => some i.url)⟩

/-- The `for item in tracks:` loop of `/api/playlist_tracks`: null tracks are
skipped, the rest formatted and appended in order. -/
def build_formatted_tracks : List PlaylistTrackItem → List FormattedTrack → List FormattedTrack
  | [], acc => acc
  | item :: rest, acc =>
    match item.track with
    | some t => build_formatted_tracks rest (acc ++ [format_track t])
    | none => build_formatted_tracks rest acc

theorem build_formatted_tracks_eq (items : List PlaylistTrackItem)
    (acc : List FormattedTrack) :
    build_formatted_tracks items acc =
      acc ++ items.filterMap (fun item => item.track.map format_track) := by
  induction items generalizing acc with
  | nil => simp [build_formatted_tracks]
  | cons item rest ih =>
    cases h : item.track with
    | none => simp [build_formatted_tracks, h, ih]
    | some t => simp [build_formatted_tracks, h, ih]

/-- Result of a request to `/api/playlist_tracks`. -/
structure PlaylistTracksResult where
  status : Nat
  tracks : Option (List FormattedTrack)
  error : Option String
  session : Session
  deriving DecidableEq

/-- `get_playlist_tracks` (app.py, route `/api/playlist_tracks`). `fetch` is
the outcome of the paginated `sp.playlist_items` listing, as its pages. -/
def get_playlist_tracks (sp_oauth : SpotifyOAuth)
    (fetch : SpotifyCall (List (List PlaylistTrackItem))) (s : Session) :
    PlaylistTracksResult :=
  if !(pyTruthy s.auth_id) then
    ⟨401, none, some "Não autenticado.", s⟩
  else
    let gc := get_spotipy_client sp_oauth s
    match gc.client with
    | none => ⟨401, none, some "Autorização do Spotify necessária.", gc.session⟩
    | some _ =>
      let s1 := gc.session
      if !(pyTruthy s1.selected_playlist_id) then
        ⟨400, none, some "Nenhuma playlist selecionada.", s1⟩
      else
        match fetch with
        | .ok pages =>
          ⟨200, some (build_formatted_tracks (gather pages []) []), none, s1⟩
        | .spotifyError msg =>
          if strContains msg "The access token expired" then
            ⟨401, none, some "Token de acesso expirado. Por favor, autorize novamente.",
             { s1 with token_info := none }⟩
          else
            ⟨500, none, some ("Erro ao carregar a playlist: " ++ msg), s1⟩
        | .otherError msg =>
          ⟨500, none, some ("Ocorreu um erro inesperado: " ++ msg), s1⟩

/-- C8: on a successful paginated listing, `/api/playlist_tracks` returns
exactly the non-null track entries of the concatenated pages, in the external
order, each formatted with the artist names joined by ", " and with album art
the first album image URL, or absent when the album has no images. -/
theorem get_playlist_tracks_format_spec (sp_oauth : SpotifyOAuth)
    (pages : List (List PlaylistTrackItem)) (s : Session)
    (hauth : pyTruthy s.auth_id = true)
    (hclient : (get_spotipy_client sp_oauth s).client.isSome = true)
    (hsel : pyTruthy s.selected_playlist_id = true) :
    (get_playlist_tracks sp_oauth (.ok pages) s).status = 200 ∧
    (get_playlist_tracks sp_oauth (.ok pages) s).tracks =
      some (pages.flatten.filterMap (fun item => item.track.map format_track)) ∧
    (∀ t : TrackObj, format_track t =
      ⟨t.id, t.name, String.intercalate ", " (t.artists.map ArtistObj.name),
       t.uri, t.album.images.head?.map ImageObj.url⟩) := by
  obtain ⟨c, hc⟩ := Option.isSome_iff_exists.mp hclient
  obtain ⟨-, -, hsel1, -⟩ := get_spotipy_client_preserves sp_oauth s
  refine ⟨?_, ?_, ?_⟩
  · simp [get_playlist_tracks, hauth, hc, hsel1, hsel]
  · simp [get_playlist_tracks, hauth, hc, hsel1, hsel,
      build_formatted_tracks_eq, gather_eq]
  · intro t
    cases h : t.album.images with
    | nil => simp [format_track, h]
    | cons i rest => simp [format_track, h]

/-- Pages used by the track-listing witness: a removed-track slot, a track
with two artists, and on a second page a track with no album image. -/
def pagesW : List (List PlaylistTrackItem) :=
  [[⟨none⟩, ⟨some ⟨"t1", "Song A", [⟨"Artist 1"⟩, ⟨"Artist 2"⟩], "uri:t1", ⟨[⟨"img1"⟩]⟩⟩⟩],
   [⟨some ⟨"t2", "Song B", [⟨"Artist 3"⟩], "uri:t2", ⟨[]⟩⟩⟩]]

theorem get_playlist_tracks_format_spec_witness :
    (get_playlist_tracks oauthW (.ok pagesW) sessionW).status = 200 ∧
    (get_playlist_tracks oauthW (.ok pagesW) sessionW).tracks =
      some (pagesW.flatten.filterMap (fun item => item.track.map format_track)) ∧
    (∀ t : TrackObj, format_track t =
      ⟨t.id, t.name, String.intercalate ", " (t.artists.map ArtistObj.name),
       t.uri, t.album.images.head?.map ImageObj.url⟩) :=
  get_playlist_tracks_format_spec oauthW pagesW sessionW
    (by decide) (by decide) (by decide)

/-- C4 counterexample: `/api/set_playlist` does not treat the expired-token
signature specially. On a concrete request whose external lookup raises a
SpotifyException whose message contains "The access token expired", the
response status is 500 (not 401) and the stored token is still present in the
session afterwards — refuting the claim that the clearing behaviour holds
uniformly across the four API routes. -/
theorem set_playlist_expired_token_counterexample :
    strContains "http status: 401, The access token expired" "The access token expired" = true ∧
    (set_playlist oauthW (.spotifyError "http status: 401, The access token expired") true
      sessionW (some "p2") []).response.status = 500 ∧
    (set_playlist oauthW (.spotifyError "http status: 401, The access token expired") true
      sessionW (some "p2") []).session.token_info = some ⟨"tok", "ref", 500⟩ := by
  refine ⟨by decide, by decide, by decide⟩

/-- C4 (amended): a SpotifyException whose message contains
"The access token expired" makes `/api/user_playlists`,
`/api/playlist_tracks` and `/api/add_to_queue` (when the message does not
also name a missing device) return 401 with the stored token removed from the
session; `/api/set_playlist` alone lacks this handler and instead returns 500
with the stored token left in place. -/
theorem expired_token_clearing_spec (sp_oauth : SpotifyOAuth) (s : Session) (msg : String)
    (hauth : pyTruthy s.auth_id = true)
    (hclient : (get_spotipy_client sp_oauth s).client.isSome = true)
    (hmsg : strContains msg "The access token expired" = true) :
    ((get_user_playlists sp_oauth (.spotifyError msg) s).status = 401 ∧
     (get_user_playlists sp_oauth (.spotifyError msg) s).session.token_info = none) ∧
    (pyTruthy s.selected_playlist_id = true →
      (get_playlist_tracks sp_oauth (.spotifyError msg) s).status = 401 ∧
      (get_playlist_tracks sp_oauth (.spotifyError msg) s).session.token_info = none) ∧
    (∀ body : AddToQueueBody, pyTruthy body.track_uri = true →
      strContains msg "No active device found" = false →
      (add_to_queue sp_oauth (.spotifyError msg) s body []).response.status = 401 ∧
      (add_to_queue sp_oauth (.spotifyError msg) s body []).session.token_info = none) ∧
    (∀ save_ok pid writes, pyTruthy pid = true → pyTruthy s.user_id = true →
      (set_playlist sp_oauth (.spotifyError msg) save_ok s pid writes).response.status = 500 ∧
      (set_playlist sp_oauth (.spotifyError msg) save_ok s pid writes).session.token_info.isSome
        = true) := by
  obtain ⟨c, hc⟩ := Option.isSome_iff_exists.mp hclient
  obtain ⟨-, huid1, hsel1, -⟩ := get_spotipy_client_preserves sp_oauth s
  refine ⟨?_, fun hsel => ?_, fun body huri hdev => ?_, fun save_ok pid writes hpid huid => ?_⟩
  · constructor <;> simp [get_user_playlists, hauth, hc, hmsg]
  · constructor <;> simp [get_playlist_tracks, hauth, hc, hmsg, hsel1, hsel]
  · constructor <;> simp [add_to_queue, hauth, hc, hmsg, hdev, huri]
  · constructor
    · simp [set_playlist, hauth, hc, hpid, huid1, huid]
    · have : (get_spotipy_client sp_oauth s).session.token_info.isSome = true := by
        unfold get_spotipy_client
        unfold get_spotipy_client at hc
        cases h : s.token_info with
        | none => rw [h] at hc; simp at hc
        | some ti =>
          rw [h] at hc
          by_cases hexp : sp_oauth.is_token_expired ti = true <;> simp [hexp, h]
      simp [set_playlist, hauth, hc, hpid, huid1, huid, this]

theorem expired_token_clearing_spec_witness :
    ((get_user_playlists oauthW
        (.spotifyError "http status: 401, The access token expired") sessionW).status = 401 ∧
     (get_user_playlists oauthW
        (.spotifyError "http status: 401, The access token expired")
        sessionW).session.token_info = none) ∧
    ((set_playlist oauthW (.spotifyError "http status: 401, The access token expired") true
        sessionW (some "p9") []).response.status = 500 ∧
     (set_playlist oauthW (.spotifyError "http status: 401, The access token expired") true
        sessionW (some "p9") []).session.token_info.isSome = true) :=
  have h := expired_token_clearing_spec oauthW sessionW
    "http status: 401, The access token expired" (by decide) (by decide) (by decide)
  ⟨h.1, h.2.2.2 true (some "p9") [] (by decide) (by decide)⟩

/-- A row of the `users` table. `display_name`, `spotify_id` and
`profile_image_url` are nullable columns. -/
structure UserRow where
  id : String
  auth_id : String
  email : String
  display_name : Option String
  spotify_id : Option String
  profile_image_url : Option String
  deriving DecidableEq

/-- `user_with_spotify_id_exists` (database.py): select the rows whose
`spotify_id` equals the given one and return the first whose `auth_id`
differs from `exclude_auth_id` (or the first at all when no exclusion is
given); `None` when there is no such row. -/
def user_with_spotify_id_exists (users : List UserRow) (spotify_id : String)
    (exclude_auth_id : Option String) : Option UserRow :=
  (users.filter (fun u => u.spotify_id == some spotify_id)).find?
    (fun u =>
      match exclude_auth_id with
      | none => true
      | some ex => u.auth_id != ex)

/-- The update dict built by `update_user_with_spotify` applied to a row:
`spotify_id` and `display_name` are always written; `email` and
`profile_image_url` only when the supplied value is truthy. -/
def apply_spotify_update (spotify_id : String) (display_name : Option String)
    (email : Option String) (profile_image_url : Option String) (u : UserRow) : UserRow :=
  { u with
    spotify_id := some spotify_id,
    display_name := display_name,
    email := if pyTruthy email then email.getD "" else u.email,
    profile_image_url :=
      if pyTruthy profile_image_url then profile_image_url else u.profile_image_url }

/-- The dict returned by `update_user_with_spotify`. -/
structure SpotifyUpdateResult where
  success : Bool
  error : Option String
  existing_user_email : Option String
  user : Option UserRow
  deriving DecidableEq

/-- `update_user_with_spotify` (database.py): refuse when the spotify_id is
already bound to a row with a different auth_id, reporting that row's email;
otherwise update every row carrying this auth_id and return the first updated
row. Returns the result dict together with the `users` table afterwards. -/
def update_user_with_spotify (users : List UserRow) (auth_id spotify_id : String)
    (display_name email profile_image_url : Option String) :
    SpotifyUpdateResult × List UserRow :=
  match user_with_spotify_id_exists users spotify_id (some auth_id) with
  | some existing_user =>
    (⟨false, some "Esta conta Spotify já está vinculada a outro usuário",
      some existing_user.email, none⟩, users)
  | none =>
    let updated := users.map (fun u =>
      if u.auth_id == auth_id then
        apply_spotify_update spotify_id display_name email profile_image_url u
      else u)
    let changed := (users.filter (fun u => u.auth_id == auth_id)).map
      (apply_spotify_update spotify_id display_name email profile_image_url)
    (⟨true, none, none, changed.head?⟩, updated)

/-- C7: linking a spotify_id already bound to a row with a different auth_id
makes `update_user_with_spotify` return a failure result carrying that row's
email and leave the `users` table unchanged; the reported row really is a row
of the table bound to this spotify_id under another auth_id. -/
theorem update_user_with_spotify_conflict_spec (users : List UserRow)
    (auth_id spotify_id : String) (display_name email profile_image_url : Option String)
    (w : UserRow)
    (hfound : user_with_spotify_id_exists users spotify_id (some auth_id) = some w) :
    (update_user_with_spotify users auth_id spotify_id display_name email
        profile_image_url).1.success = false ∧
    (update_user_with_spotify users auth_id spotify_id display_name email
        profile_image_url).1.existing_user_email = some w.email ∧
    (update_user_with_spotify users auth_id spotify_id display_name email
        profile_image_url).2 = users ∧
    w ∈ users ∧ w.spotify_id = some spotify_id ∧ w.auth_id ≠ auth_id := by
  have hmem := List.mem_of_find?_eq_some hfound
  have hpred := List.find?_some hfound
  rw [List.mem_filter] at hmem
  refine ⟨?_, ?_, ?_, hmem.1, ?_, ?_⟩
  · simp [update_user_with_spotify, hfound]
  · simp [update_user_with_spotify, hfound]
  · simp [update_user_with_spotify, hfound]
  · have := hmem.2
    simpa using this
  · simpa using hpred

/-- Users table used by the linking witnesses: `bob` already owns spotify
identity `sp9`. -/
def usersW : List UserRow :=
  [⟨"1", "authA", "alice@x.com", some "alice", none, none⟩,
   ⟨"2", "authB", "bob@x.com", some "bob", some "sp9", some "img"⟩]

theorem update_user_with_spotify_conflict_spec_witness :
    (update_user_with_spotify usersW "authA" "sp9" (some "alice") none none).1.success = false ∧
    (update_user_with_spotify usersW "authA" "sp9" (some "alice") none
        none).1.existing_user_email = some "bob@x.com" ∧
    (update_user_with_spotify usersW "authA" "sp9" (some "alice") none none).2 = usersW ∧
    (⟨"2", "authB", "bob@x.com", some "bob", some "sp9", some "img"⟩ : UserRow) ∈ usersW ∧
    (some "sp9" : Option String) = some "sp9" ∧ "authB" ≠ "authA" := by
  have h := update_user_with_spotify_conflict_spec usersW "authA" "sp9"
    (some "alice") none none
    ⟨"2", "authB", "bob@x.com", some "bob", some "sp9", some "img"⟩ (by decide)
  exact h

theorem zip_self_map {α β : Type} (g : α → β) (l : List α) :
    l.zip (l.map g) = l.map (fun a => (a, g a)) := by
  induction l with
  | nil => rfl
  | cons a l ih => simp [ih]

/-- C9: a successful `update_user_with_spotify` rewrites each field of the
update independently. For every row of the table paired with its successor:
rows of other auth_ids are untouched; on the rows of this auth_id,
`spotify_id` and `display_name` are always written, while `email` keeps its
stored value whenever the supplied email is falsy (and is overwritten only
when it is truthy), and `profile_image_url` keeps its stored value whenever
the supplied image URL is falsy (and is overwritten only when it is truthy)
— so a profile lacking an email or images never nulls the stored fields. -/
theorem update_user_with_spotify_omits_falsy_spec (users : List UserRow)
    (auth_id spotify_id : String) (display_name email profile_image_url : Option String)
    (p : UserRow × UserRow)
    (hnone : user_with_spotify_id_exists users spotify_id (some auth_id) = none)
    (hp : p ∈ users.zip (update_user_with_spotify users auth_id spotify_id
        display_name email profile_image_url).2) :
    (update_user_with_spotify users auth_id spotify_id display_name email
        profile_image_url).2.length = users.length ∧
    (p.1.auth_id ≠ auth_id → p.2 = p.1) ∧
    (p.1.auth_id = auth_id →
      p.2.spotify_id = some spotify_id ∧
      p.2.display_name = display_name ∧
      (pyTruthy email = false → p.2.email = p.1.email) ∧
      (pyTruthy email = true → p.2.email = email.getD "") ∧
      (pyTruthy profile_image_url = false →
        p.2.profile_image_url = p.1.profile_image_url) ∧
      (pyTruthy profile_image_url = true →
        p.2.profile_image_url = profile_image_url)) := by
  simp only [update_user_with_spotify, hnone] at hp ⊢
  rw [zip_self_map] at hp
  obtain ⟨a, ha, rfl⟩ := List.mem_map.mp hp
  refine ⟨by simp, fun hne => ?_, fun heq => ?_⟩
  · have hne2 : a.auth_id ≠ auth_id := by simpa using hne
    have hb : (a.auth_id == auth_id) = false := by simp [hne2]
    simp [hb]
  · have heq2 : a.auth_id = auth_id := by simpa using heq
    have hb : (a.auth_id == auth_id) = true := by simp [heq2]
    refine ⟨by simp [hb, apply_spotify_update], by simp [hb, apply_spotify_update],
      fun h => by simp [hb, apply_spotify_update, h],
      fun h => by simp [hb, apply_spotify_update, h],
      fun h => by simp [hb, apply_spotify_update, h],
      fun h => by simp [hb, apply_spotify_update, h]⟩

/-- The witness's mixed case: a Spotify profile carrying an email but no
image is linked to alice, whose stored (empty) profile image must survive. -/
def rowAliceW : UserRow :=
  ⟨"1", "authA", "alice@x.com", some "alice", none, none⟩

/-- Alice's row after the witness update: email overwritten (the supplied one
is truthy), profile image kept (the supplied one is falsy). -/
def rowAliceLinkedW : UserRow :=
  ⟨"1", "authA", "alice@spotify.com", some "Alice S", some "sp7", none⟩

theorem update_user_with_spotify_omits_falsy_spec_witness :
    (update_user_with_spotify usersW "authA" "sp7" (some "Alice S")
        (some "alice@spotify.com") none).2.length = usersW.length ∧
    (rowAliceW.auth_id ≠ "authA" → rowAliceLinkedW = rowAliceW) ∧
    (rowAliceW.auth_id = "authA" →
      rowAliceLinkedW.spotify_id = some "sp7" ∧
      rowAliceLinkedW.display_name = some "Alice S" ∧
      (pyTruthy (some "alice@spotify.com") = false →
        rowAliceLinkedW.email = rowAliceW.email) ∧
      (pyTruthy (some "alice@spotify.com") = true →
        rowAliceLinkedW.email = (some "alice@spotify.com").getD "") ∧
      (pyTruthy (none : Option String) = false →
        rowAliceLinkedW.profile_image_url = rowAliceW.profile_image_url) ∧
      (pyTruthy (none : Option String) = true →
        rowAliceLinkedW.profile_image_url = none)) :=
  update_user_with_spotify_omits_falsy_spec usersW "authA" "sp7" (some "Alice S")
    (some "alice@spotify.com") none (rowAliceW, rowAliceLinkedW)
    (by decide) (by decide)

/-- Redirect targets of the HTML routes. -/
inductive Page where
  | index
  | register_page
  | login_page
  | spotify_auth
  | playlist_select
  | jukebox_page
  deriving DecidableEq

/-- A Supabase Auth user (`response.user` of sign-up, `auth_response.user`
of sign-in), restricted to the id the handlers read. -/
structure AuthUser where
  id : String
  deriving DecidableEq

/-- The POST form of `/register`. -/
structure RegisterForm where
  email : Option String := none
  password : Option String := none
  password_confirm : Option String := none
  deriving DecidableEq

/-- Result of a POST to `/register`: where the response redirects, the session
afterwards, and whether the managed auth service was called. -/
structure RegisterResult where
  redirect_to : Page
  session : Session
  auth_call : Bool
  deriving DecidableEq

/-- `register` (app.py, POST branch). `register_user_result` is the outcome of
the external `register_user` call, `get_or_create_result` that of
`get_or_create_user`. -/
def register (register_user_result : Option AuthUser)
    (get_or_create_result : Option UserRow) (s : Session) (form : RegisterForm) :
    RegisterResult :=
  if !(pyTruthy form.email) || !(pyTruthy form.password) then
    ⟨.register_page, s, false⟩
  else if form.password != form.password_confirm then
    ⟨.register_page, s, false⟩
  else if (form.password.getD "").length < 6 then
    ⟨.register_page, s, false⟩
  else
    match register_user_result with
    | none => ⟨.register_page, s, true⟩
    | some user =>
      match get_or_create_result with
      | none => ⟨.register_page, s, true⟩
      | some db_user =>
        ⟨.spotify_auth,
         { s with auth_id := some user.id, email := form.email,
                  user_id := some db_user.id, user_name := db_user.display_name },
         true⟩

/-- The POST form of `/login`. -/
structure LoginForm where
  email : Option String := none
  password : Option String := none
  deriving DecidableEq

/-- Result of a POST to `/login`. -/
structure LoginResult where
  redirect_to : Page
  session : Session
  auth_call : Bool
  deriving DecidableEq

/-- `login` (app.py, POST branch). `login_user_result` is the outcome of the
external `login_user` call, `get_user_result` that of `get_user_by_auth_id`. -/
def login (login_user_result : Option AuthUser) (get_user_result : Option UserRow)
    (s : Session) (form : LoginForm) : LoginResult :=
  if !(pyTruthy form.email) || !(pyTruthy form.password) then
    ⟨.login_page, s, false⟩
  else
    match login_user_result with
    | none => ⟨.login_page, s, true⟩
    | some auth_user =>
      let s1 := { s with auth_id := some auth_user.id, email := form.email }
      match get_user_result with
      | none => ⟨.login_page, s1, true⟩
      | some user =>
        let s2 := { s1 with user_id := some user.id, user_name := user.display_name }
        if pyTruthy user.spotify_id then ⟨.playlist_select, s2, true⟩
        else ⟨.spotify_auth, s2, true⟩

/-- C5 counterexample: `/login` does not enforce the minimum password length.
A concrete login with the 3-character password "abc" reaches the external
auth call — refuting the claim that both register and authenticate reject
passwords under 6 characters before calling out. -/
theorem login_short_password_calls_out :
    ("abc".length < 6) = True ∧
    (login none none {} ⟨some "a@x.com", some "abc"⟩).auth_call = true := by
  refine ⟨by decide, by decide⟩

/-- C5 (amended): `/register` rejects a password under 6 characters or a
mismatched confirmation before any external call (redirecting back with no
auth call); `/login` checks only that email and password are present, and
with both present always makes the external auth call, whatever the password
length (it has no confirmation field). -/
theorem password_validation_spec :
    (∀ (register_user_result : Option AuthUser) (get_or_create_result : Option UserRow)
       (s : Session) (form : RegisterForm),
      pyTruthy form.email = true → pyTruthy form.password = true →
      ((form.password.getD "").length < 6 ∨ form.password ≠ form.password_confirm) →
      (register register_user_result get_or_create_result s form).auth_call = false ∧
      (register register_user_result get_or_create_result s form).redirect_to
        = Page.register_page) ∧
    (∀ (login_user_result : Option AuthUser) (get_user_result : Option UserRow)
       (s : Session) (form : LoginForm),
      pyTruthy form.email = true → pyTruthy form.password = true →
      (login login_user_result get_user_result s form).auth_call = true) := by
  constructor
  · intro ru gc s form hemail hpass hbad
    by_cases hm : form.password = form.password_confirm
    · rcases hbad with hlen | hne
      · have hmatch : (form.password != form.password_confirm) = false := by
          simp [hm]
        constructor <;> simp [register, hemail, hpass, hmatch, hlen]
      · exact absurd hm hne
    · have hmatch : (form.password != form.password_confirm) = true := by
        simp [hm]
      constructor <;> simp [register, hemail, hpass, hmatch]
  · intro lu gu s form hemail hpass
    cases lu with
    | none => simp [login, hemail, hpass]
    | some u =>
      cases gu with
      | none => simp [login, hemail, hpass]
      | some user =>
        by_cases hsp : pyTruthy user.spotify_id = true <;>
          simp [login, hemail, hpass, hsp]

theorem password_validation_spec_witness :
    ((register none none {} ⟨some "a@x.com", some "abc", some "abc"⟩).auth_call = false ∧
     (register none none {} ⟨some "a@x.com", some "abc", some "abc"⟩).redirect_to
       = Page.register_page) ∧
    (login none none {} ⟨some "a@x.com", some "abc"⟩).auth_call = true :=
  ⟨password_validation_spec.1 none none {} ⟨some "a@x.com", some "abc", some "abc"⟩
     (by decide) (by decide) (Or.inl (by decide)),
   password_validation_spec.2 none none {} ⟨some "a@x.com", some "abc"⟩
     (by decide) (by decide)⟩

/-- Result of a GET to `/login_spotify`: the URL it redirects to and the
session afterwards. -/
structure LoginSpotifyResult where
  redirect_url : String
  session : Session
  deriving DecidableEq

/-- `login_spotify` (app.py): builds the OAuth helper and redirects to its
authorize URL. `auth_url` is the URL `sp_oauth.get_authorize_url()` returns.
The handler performs no session check. -/
def login_spotify (auth_url : String) (s : Session) : LoginSpotifyResult :=
  ⟨auth_url, s⟩

/-- The Spotify profile returned by `sp.current_user()`, restricted to the
fields `callback` reads; `display_name` and `email` are nullable. -/
structure SpotifyProfile where
  id : String
  display_name : Option String
  email : Option String
  images : List ImageObj
  deriving DecidableEq

/-- Result of a GET to `/callback`: where the response redirects, the session
and `users` table afterwards, and whether the code-for-token exchange with
the provider was attempted. -/
structure CallbackResult where
  redirect_to : Page
  session : Session
  users : List UserRow
  token_exchange : Bool
  deriving DecidableEq

/-- `callback` (app.py): guards on the query `code` and on a logged-in
session, then exchanges the code, fetches the Spotify profile and links it
via `update_user_with_spotify`; every exception inside the exchange is caught
and turned into a redirect back to `/login_spotify`. -/
def callback (get_token : SpotifyCall TokenInfo)
    (profile_call : SpotifyCall SpotifyProfile) (code : Option String)
    (s : Session) (users : List UserRow) : CallbackResult :=
  if !(pyTruthy code) then
    ⟨.spotify_auth, s, users, false⟩
  else if !(pyTruthy s.auth_id) then
    ⟨.login_page, s, users, false⟩
  else
    match get_token with
    | .ok token_info =>
      let s1 := { s with token_info := some token_info }
      match profile_call with
      | .ok profile =>
        let r := update_user_with_spotify users (s1.auth_id.getD "") profile.id
          (pyOrOpt profile.display_name profile.email) profile.email
          (match profile.images with
           | [] => none
           | i :: _ => some i.url)
        if r.1.success then
          match r.1.user with
          | some updated =>
            ⟨.playlist_select,
             { s1 with user_id := some updated.id, user_name := updated.display_name },
             r.2, true⟩
          | none => ⟨.spotify_auth, s1, r.2, true⟩
        else ⟨.spotify_auth, s1, r.2, true⟩
      | .spotifyError _ => ⟨.spotify_auth, s1, users, true⟩
      | .otherError _ => ⟨.spotify_auth, s1, users, true⟩
    | .spotifyError _ => ⟨.spotify_auth, s, users, true⟩
    | .otherError _ => ⟨.spotify_auth, s, users, true⟩

/-- C6 counterexample: `/login_spotify` performs no local-login check. A
concrete GET whose session is empty (no authenticated local user) is still
redirected to the external authorize URL, i.e. the OAuth flow is begun. -/
theorem login_spotify_no_auth_counterexample :
    ({} : Session).auth_id = none ∧
    (login_spotify "https://accounts.spotify.com/authorize?client_id=c" {}).redirect_url
      = "https://accounts.spotify.com/authorize?client_id=c" :=
  ⟨rfl, rfl⟩

/-- C6 (amended): `/login_spotify` begins the external OAuth redirect for
every session, authenticated or not; the prior-local-login requirement is
enforced only at `/callback`, which, given a code but no `auth_id` in
session, redirects to `/login` without attempting the token exchange or
touching the session or the users table. -/
theorem login_spotify_unconditional_spec (auth_url : String) (s : Session) :
    ((login_spotify auth_url s).redirect_url = auth_url ∧
     (login_spotify auth_url s).session = s) ∧
    (∀ (get_token : SpotifyCall TokenInfo) (profile_call : SpotifyCall SpotifyProfile)
       (code : Option String) (users : List UserRow),
      pyTruthy code = true → pyTruthy s.auth_id = false →
      (callback get_token profile_call code s users).redirect_to = Page.login_page ∧
      (callback get_token profile_call code s users).token_exchange = false ∧
      (callback get_token profile_call code s users).session = s ∧
      (callback get_token profile_call code s users).users = users) := by
  refine ⟨⟨rfl, rfl⟩, fun gt pc code users hcode hauth => ?_⟩
  refine ⟨?_, ?_, ?_, ?_⟩ <;> simp [callback, hcode, hauth]

theorem login_spotify_unconditional_spec_witness :
    ((login_spotify "https://accounts.spotify.com/authorize?client_id=c" {}).redirect_url
       = "https://accounts.spotify.com/authorize?client_id=c" ∧
     (login_spotify "https://accounts.spotify.com/authorize?client_id=c" {}).session
       = {}) ∧
    ((callback (.ok ⟨"a", "r", 0⟩) (.ok ⟨"sp1", none, none, []⟩) (some "code1") {} []).redirect_to
       = Page.login_page ∧
     (callback (.ok ⟨"a", "r", 0⟩) (.ok ⟨"sp1", none, none, []⟩) (some "code1") {} []).token_exchange
       = false ∧
     (callback (.ok ⟨"a", "r", 0⟩) (.ok ⟨"sp1", none, none, []⟩) (some "code1") {} []).session
       = {} ∧
     (callback (.ok ⟨"a", "r", 0⟩) (.ok ⟨"sp1", none, none, []⟩) (some "code1") {} []).users
       = []) :=
  ⟨(login_spotify_unconditional_spec "https://accounts.spotify.com/authorize?client_id=c" {}).1,
   (login_spotify_unconditional_spec "https://accounts.spotify.com/authorize?client_id=c" {}).2
     (.ok ⟨"a", "r", 0⟩) (.ok ⟨"sp1", none, none, []⟩) (some "code1") []
     (by decide) (by decide)⟩

end Tocai
